import Mathlib

/-!
Verification of the benchmark-harness notebook of the DE_project repository
(`src/notebooks/preprocessing.ipynb`) against its natural-language
specification.  The Python source is shallowly embedded: pure numeric code
becomes functions over `ℚ`/`ℤ`/`ℕ`, dataframes become lists of records, and
the external Spark collaborator's behaviour (session lifecycle, seeded row
sampling, per-repetition wall-clock measurements) is modelled by explicit
data passed to the embedded functions.
-/

namespace DEProject

/-! ## SizeEstimator (`configure_spark`, `bytes_to_gb`, `build_spark_session`) -/

/-- Python `int(...)` applied to a non-integer number truncates toward zero:
floor for non-negative arguments, ceiling for negative ones. -/
def pyInt (q : ℚ) : ℤ :=
  if 0 ≤ q then ⌊q⌋ else ⌈q⌉

/-- `bytes_to_gb` of the notebook: `size_bytes / (1024 * 1024 * 1024)`. -/
def bytes_to_gb (size_bytes : ℚ) : ℚ :=
  size_bytes / (1024 * 1024 * 1024)

/-- Core count computed by `configure_spark`:
`executor_cores = int(dataset_size_gb * core_factor) + 2` with
`core_factor = 2`, then incremented by 1 if odd ("ensure executor_cores is
even"). -/
def configure_spark_cores (dataset_size_gb : ℚ) : ℤ :=
  let executor_cores := pyInt (dataset_size_gb * 2) + 2
  if executor_cores % 2 ≠ 0 then executor_cores + 1 else executor_cores

/-- Numeric gigabyte value interpolated into the executor-memory string by
`configure_spark`: `min(executor_cores, 4) * memory_factor` with
`memory_factor = 1`. -/
def configure_spark_memory_gb (dataset_size_gb : ℚ) : ℤ :=
  min (configure_spark_cores dataset_size_gb) 4 * 1

/-- `configure_spark` of the notebook: returns the pair
`(executor_cores, executor_memory)` where the memory is the f-string
`f"{min(executor_cores, 4) * memory_factor}g"`. -/
def configure_spark (dataset_size_gb : ℚ) : ℤ × String :=
  (configure_spark_cores dataset_size_gb,
   toString (configure_spark_memory_gb dataset_size_gb) ++ "g")

/-- `configure_spark` performs no input validation and has no raise path, so
its embedding as a fallible computation always returns `Except.ok`. -/
def configure_sparkE (dataset_size_gb : ℚ) : Except String (ℤ × String) :=
  Except.ok (configure_spark dataset_size_gb)

/-- The size estimator applied to a raw byte count, as `build_spark_session`
does: `configure_spark(bytes_to_gb(fileSize))`, fallibility included. -/
def SizeEstimatorE (byte_size : ℚ) : Except String (ℤ × String) :=
  configure_sparkE (bytes_to_gb byte_size)

/-- The session configuration values a `build_spark_session` call installs. -/
structure SparkConf where
  executor_cores : ℤ
  executor_memory : String
  max_cores : ℤ
  deriving DecidableEq

/-- The configuration `build_spark_session` derives from the probed file
size: `spark.executor.cores = min(executor_cores, 4)`,
`spark.executor.memory = executor_memory`,
`spark.cores.max = min(executor_cores, 32)` where
`executor_cores, executor_memory = configure_spark(bytes_to_gb(fileSize))`. -/
def build_spark_session_conf (fileSize : ℚ) : SparkConf :=
  let p := configure_spark (bytes_to_gb fileSize)
  { executor_cores := min p.1 4
    executor_memory := p.2
    max_cores := min p.1 32 }

/-! ## FrequencyFilter (`filter_data`)

A dataframe row of the reddit schema `schema_v1` is a record of three
nullable string columns. -/

/-- One loaded row: `subreddit`, `summary` and `content`, each nullable. -/
structure Record where
  subreddit : Option String
  summary : Option String
  content : Option String
  deriving DecidableEq

/-- The null test of `filter_data` step 1: all three columns are present. -/
def hasAllFields (r : Record) : Bool :=
  r.subreddit.isSome && r.summary.isSome && r.content.isSome

/-- Step 1 of `filter_data`: `df.filter(isNotNull & isNotNull & isNotNull)`. -/
def filter_nulls (df : List Record) : List Record :=
  df.filter hasAllFields

/-- The `count` column of `df_filtered.groupBy("subreddit").count()`: how
often a subreddit value occurs in the (null-filtered) dataframe. -/
def subCount (df : List Record) (s : String) : ℕ :=
  (df.filter fun r => r.subreddit == some s).length

/-- Helper for the distinct keys of a `groupBy`: first occurrence order,
`seen` accumulating the keys already emitted. -/
def dedupFirstAux : List String → List String → List String
  | [], _ => []
  | s :: ss, seen =>
    if s ∈ seen then dedupFirstAux ss seen else s :: dedupFirstAux ss (s :: seen)

/-- The distinct subreddit values of a dataframe, as the keys of
`groupBy("subreddit")` (the groupBy sees only non-null values of rows that
carry one). -/
def distinctSubs (df : List Record) : List String :=
  dedupFirstAux (df.filterMap Record.subreddit) []

/-- Insertion into a list sorted by descending count (the model's
deterministic stand-in for `orderBy(col("count").desc())`, whose tie order
Spark leaves unspecified). -/
def insertDesc (cnt : String → ℕ) (s : String) : List String → List String
  | [] => [s]
  | t :: ts => if cnt t ≤ cnt s then s :: t :: ts else t :: insertDesc cnt s ts

/-- Sorting by descending count: `orderBy(col("count").desc())`. -/
def sortByCountDesc (cnt : String → ℕ) : List String → List String
  | [] => []
  | s :: ss => insertDesc cnt s (sortByCountDesc cnt ss)

/-- Steps 2–4 of `filter_data`: group by subreddit, order by count
descending, `limit(25)`, and collect the subreddit values. -/
def topSubreddits (df : List Record) : List String :=
  (sortByCountDesc (subCount df) (distinctSubs df)).take 25

/-- The membership test `col("subreddit").isin(top_25_subreddits)`; a null
subreddit value never tests true. -/
def isinTop (top : List String) (r : Record) : Bool :=
  match r.subreddit with
  | some s => top.contains s
  | none => false

/-- `filter_data` of the notebook: drop rows with a null required column,
compute the top-25 subreddits by count of the remaining rows, and keep only
rows whose subreddit is among them. -/
def filter_data (df : List Record) : List Record :=
  let df_filtered := filter_nulls df
  let top_25_subreddits := topSubreddits df_filtered
  df_filtered.filter (isinTop top_25_subreddits)

/-! ## DeterministicSplitter (`split_data`)

`split_data` calls the external collaborator
`df.randomSplit([(1-test_fraction), test_fraction], seed=seed)`.  Per the
spec (§4.3) the collaborator assigns each row independently to the test side
with probability `test_fraction` using a pseudo-random generator seeded by
`seed`; it is modelled here as a concrete deterministic function of the seed
and the row position — no ambient state enters the computation, which is
exactly the reproducibility contract. -/

/-- Deterministic pseudo-random word for row `i` under `seed` (a linear
congruential mix standing in for Spark's seeded per-row sampler). -/
def splitHash (seed i : ℕ) : ℕ :=
  (1103515245 * (seed + i) + 12345) % 2147483648

/-- Whether row `i` is assigned to the test side. -/
def assignTest (seed : ℕ) (test_fraction : ℚ) (i : ℕ) : Bool :=
  decide ((splitHash seed i : ℚ) / 2147483648 < test_fraction)

/-- `split_data` of the notebook: the seeded two-way `randomSplit` into
`(train_data, test_data)`. -/
def split_data (df : List Record) (seed : ℕ) (test_fraction : ℚ) :
    List Record × List Record :=
  ((df.enum.filter fun p => !assignTest seed test_fraction p.1).map Prod.snd,
   (df.enum.filter fun p => assignTest seed test_fraction p.1).map Prod.snd)

/-- One invocation of `split_data` in an ambient environment (wall clock,
global generator state, prior Spark jobs — anything that could differ
between two calls).  The source threads only the explicit `seed` into
`randomSplit`, so the ambient argument is not consumed. -/
def run_split (ambient : ℕ) (df : List Record) (seed : ℕ) (test_fraction : ℚ) :
    List Record × List Record :=
  split_data df seed test_fraction

/-- The split the harness uses: `evaluate_performance` calls
`split_data(df)` on the filtered dataframe with Python's declared defaults
`seed=42`, `test_fraction=0.2`, independent of the repetition index `i`. -/
def harness_split_at_rep (df : List Record) (i : ℕ) :
    List Record × List Record :=
  split_data (filter_data df) 42 (0.2 : ℚ)

/-! ## BenchmarkHarness (`evaluate_performance` and the per-dataset loop)

A repetition's measured values (the per-`i` entries of the numpy arrays);
wall-clock checkpoints and the evaluator's accuracy are external, so one
repetition's outcome is data: `some` metrics, or `none` when a step of that
repetition raises. -/

/-- The metrics one successful repetition stores at index `i`. -/
structure RunMetrics where
  load_time : ℚ
  train_time : ℚ
  eval_time : ℚ
  total_time : ℚ
  accuracy : ℚ
  deriving DecidableEq

/-- The averaged result row `evaluate_performance` returns for a dataset. -/
structure BenchmarkRow where
  load_time : ℚ
  train_time : ℚ
  eval_time : ℚ
  total_time : ℚ
  accuracy : ℚ
  deriving DecidableEq

/-- `numpy.mean` of a list of rationals (`arr.mean()`). -/
def npMean (xs : List ℚ) : ℚ :=
  xs.sum / xs.length

/-- The aggregation at the end of `evaluate_performance`: each field is the
`.mean()` of the corresponding per-repetition array. -/
def meanRow (runs : List RunMetrics) : BenchmarkRow :=
  { load_time := npMean (runs.map RunMetrics.load_time)
    train_time := npMean (runs.map RunMetrics.train_time)
    eval_time := npMean (runs.map RunMetrics.eval_time)
    total_time := npMean (runs.map RunMetrics.total_time)
    accuracy := npMean (runs.map RunMetrics.accuracy) }

/-- The repetition loop of `evaluate_performance`: repetitions run in
order; there is no per-repetition handler, so the first raising repetition
aborts the loop (and the remaining repetitions) with the exception
propagating out of `evaluate_performance`. -/
def runReps : List (Option RunMetrics) → Option (List RunMetrics)
  | [] => some []
  | outcome :: rest =>
    match outcome with
    | none => none
    | some m => (runReps rest).map fun ms => m :: ms

/-- `evaluate_performance` over the outcomes of its `n` repetitions: if
every repetition completes, one averaged row; if any repetition raises,
no row (the exception leaves the function). -/
def evaluate_performance (outcomes : List (Option RunMetrics)) :
    Option BenchmarkRow :=
  (runReps outcomes).map meanRow

/-- The per-dataset loop of the results cell: `for file in files: try:
results.append(...) except: print(...)` — a failing dataset is logged and
skipped, the rows already in `results` are untouched, and the loop
continues with the next file. -/
def benchmarkLoop (results : List (String × BenchmarkRow)) :
    List String → (String → Option BenchmarkRow) → List (String × BenchmarkRow)
  | [], _ => results
  | file :: rest, run =>
    match run file with
    | some row => benchmarkLoop (results ++ [(file, row)]) rest run
    | none => benchmarkLoop results rest run

/-! ## Session lifecycle inside one repetition

`build_spark_session` creates a probe session, stops it, and creates the
configured session; `evaluate_performance` then runs load → filter → split
→ train → evaluate and only afterwards calls `spark_context.stop()` — the
stop is not inside any `finally`, so it is reached only when every step
completed. -/

/-- A session lifecycle event. -/
inductive SessionEv where
  | create
  | destroy
  deriving DecidableEq

/-- The steps of one repetition that run between session creation and the
`spark_context.stop()` call. -/
inductive RepStep where
  | load
  | filterStep
  | splitStep
  | train
  | evalStep
  deriving DecidableEq

/-- The order of the steps in `evaluate_performance`'s loop body. -/
def repetitionSteps : List RepStep :=
  [RepStep.load, RepStep.filterStep, RepStep.splitStep, RepStep.train, RepStep.evalStep]

/-- The session events of one `build_spark_session` call: the probe session
is created and stopped, then the configured session is created. -/
def build_spark_session_events : List SessionEv :=
  [SessionEv.create, SessionEv.destroy, SessionEv.create]

/-- The session events of one repetition, given which steps would raise:
`spark_context.stop()` runs only when every step succeeded, since no
`try`/`finally` protects it. -/
def repetitionEvents (failsAt : RepStep → Bool) : List SessionEv :=
  build_spark_session_events ++
    (if repetitionSteps.all (fun s => !failsAt s) then [SessionEv.destroy] else [])

/-- Sessions still live after a list of events. -/
def liveSessions (evs : List SessionEv) : ℤ :=
  (evs.count SessionEv.create : ℤ) - (evs.count SessionEv.destroy : ℤ)

/-- Modelled from the spec: the "arithmetic mean" the aggregation protocol
of §4.6 demands for each metric field, to be compared with the `.mean()`
the code computes. -/
def arithMean (xs : List ℚ) : ℚ :=
  xs.sum / xs.length

/-! ## Lemmas about the size estimator -/

theorem configure_spark_cores_def (g : ℚ) :
    configure_spark_cores g =
      if (pyInt (g * 2) + 2) % 2 ≠ 0 then pyInt (g * 2) + 2 + 1
      else pyInt (g * 2) + 2 :=
  rfl

theorem pyInt_mono {a b : ℚ} (hab : a ≤ b) : pyInt a ≤ pyInt b := by
  unfold pyInt
  split_ifs with h1 h2 h2
  · exact Int.floor_mono hab
  · exact absurd (le_trans h1 hab) h2
  · have h1' : ⌈a⌉ ≤ (0 : ℤ) := Int.ceil_le.mpr (by exact_mod_cast le_of_not_le h1)
    have h2' : (0 : ℤ) ≤ ⌊b⌋ := Int.floor_nonneg.mpr h2
    omega
  · exact Int.ceil_mono hab

theorem evenBump_mono {m n : ℤ} (h : m ≤ n) :
    (if m % 2 ≠ 0 then m + 1 else m) ≤ (if n % 2 ≠ 0 then n + 1 else n) := by
  split_ifs <;> omega

theorem pyInt_nonneg_of_nonneg {q : ℚ} (h : 0 ≤ q) : 0 ≤ pyInt q := by
  rw [pyInt, if_pos h]
  exact Int.floor_nonneg.mpr h

theorem bytes_to_gb_nonneg {b : ℚ} (h : 0 ≤ b) : 0 ≤ bytes_to_gb b :=
  div_nonneg h (by norm_num)

theorem configure_spark_cores_ge_two {g : ℚ} (h : 0 ≤ g) :
    2 ≤ configure_spark_cores g := by
  have hp : 0 ≤ pyInt (g * 2) := pyInt_nonneg_of_nonneg (by positivity)
  rw [configure_spark_cores_def]
  split_ifs <;> omega

theorem configure_spark_cores_even (g : ℚ) :
    configure_spark_cores g % 2 = 0 := by
  rw [configure_spark_cores_def]
  split_ifs with h <;> omega

/-! ## Claim theorems: C1–C4 -/

/-- Claim C1: for every `byte_size ≥ 0`, the cluster plan produced by the
size estimator (`configure_spark` applied to the size converted to GB) has an
even executor-core count that is at least 2, and an executor-memory value
between 1 and 4 GB. -/
theorem spec_C1_cluster_plan_invariants (byte_size : ℚ) (h : 0 ≤ byte_size) :
    configure_spark_cores (bytes_to_gb byte_size) % 2 = 0 ∧
    2 ≤ configure_spark_cores (bytes_to_gb byte_size) ∧
    1 ≤ configure_spark_memory_gb (bytes_to_gb byte_size) ∧
    configure_spark_memory_gb (bytes_to_gb byte_size) ≤ 4 := by
  have hg : 0 ≤ bytes_to_gb byte_size := bytes_to_gb_nonneg h
  have hc : 2 ≤ configure_spark_cores (bytes_to_gb byte_size) :=
    configure_spark_cores_ge_two hg
  refine ⟨configure_spark_cores_even _, hc, ?_, ?_⟩
  · rw [configure_spark_memory_gb, mul_one]
    exact le_min (by omega) (by norm_num)
  · rw [configure_spark_memory_gb, mul_one]
    exact min_le_right _ _

/-- Witness for C1 at `byte_size = 0`. -/
theorem spec_C1_witness :
    (0 : ℚ) ≤ 0 ∧
    (configure_spark_cores (bytes_to_gb 0) % 2 = 0 ∧
     2 ≤ configure_spark_cores (bytes_to_gb 0) ∧
     1 ≤ configure_spark_memory_gb (bytes_to_gb 0) ∧
     configure_spark_memory_gb (bytes_to_gb 0) ≤ 4) :=
  ⟨le_refl 0, spec_C1_cluster_plan_invariants 0 (le_refl 0)⟩

/-- Claim C2: the size estimator is monotonic — for `0 ≤ byte_size₁ ≤
byte_size₂` the executor-core count computed for the smaller size never
exceeds the one computed for the larger size. -/
theorem spec_C2_cores_monotonic (b1 b2 : ℚ) (h0 : 0 ≤ b1) (h : b1 ≤ b2) :
    configure_spark_cores (bytes_to_gb b1) ≤ configure_spark_cores (bytes_to_gb b2) := by
  have hg : bytes_to_gb b1 ≤ bytes_to_gb b2 := by
    unfold bytes_to_gb
    exact (div_le_div_iff_of_pos_right (by norm_num)).mpr h
  have hp : pyInt (bytes_to_gb b1 * 2) + 2 ≤ pyInt (bytes_to_gb b2 * 2) + 2 := by
    have := pyInt_mono (mul_le_mul_of_nonneg_right hg (by norm_num : (0 : ℚ) ≤ 2))
    omega
  rw [configure_spark_cores_def, configure_spark_cores_def]
  exact evenBump_mono hp

/-- Witness for C2 at `byte_size₁ = 0`, `byte_size₂ = 2^30` (1 GB). -/
theorem spec_C2_witness :
    (0 : ℚ) ≤ 0 ∧ (0 : ℚ) ≤ 1073741824 ∧
    configure_spark_cores (bytes_to_gb 0) ≤ configure_spark_cores (bytes_to_gb 1073741824) :=
  ⟨le_refl 0, by norm_num, spec_C2_cores_monotonic 0 1073741824 (le_refl 0) (by norm_num)⟩

/-- Claim C3: end-to-end scenario B — for an input of 18.27 GB
(`byte_size = 18.27 * 2^30` bytes) the session configuration built by
`build_spark_session` has `executor_cores = 4` and `executor_memory = "4g"`.
(`configure_spark` itself returns 38 cores for this size; the session caps
the per-executor core count with `min(executor_cores, 4)`, and the memory
string is already clamped by the same `min`.) -/
theorem spec_C3_scenario_b :
    (build_spark_session_conf ((1827 / 100 : ℚ) * 1073741824)).executor_cores = 4 ∧
    (build_spark_session_conf ((1827 / 100 : ℚ) * 1073741824)).executor_memory = "4g" ∧
    (configure_spark (1827 / 100 : ℚ)).1 = 38 := by
  have hgb : bytes_to_gb ((1827 / 100 : ℚ) * 1073741824) = 1827 / 100 := by
    unfold bytes_to_gb
    norm_num
  have hpy : pyInt ((1827 / 100 : ℚ) * 2) = 36 := by
    rw [pyInt, if_pos (by norm_num), Int.floor_eq_iff]
    norm_num
  have hcores : configure_spark_cores (1827 / 100 : ℚ) = 38 := by
    rw [configure_spark_cores_def, hpy]
    norm_num
  have hmem : configure_spark_memory_gb (1827 / 100 : ℚ) = 4 := by
    rw [configure_spark_memory_gb, hcores]
    norm_num
  refine ⟨?_, ?_, ?_⟩
  · simp only [build_spark_session_conf, configure_spark, hgb, hcores]
    norm_num
  · simp only [build_spark_session_conf, configure_spark, hgb, hmem]
    rfl
  · simp only [configure_spark, hcores]

/-- Claim C4 counterexample: the claim says every negative `byte_size` makes
the size estimator signal an invalid-input error, but `configure_spark` has
no defensive check at all — at `byte_size = -2^30` (i.e. -1 GB) it succeeds
and returns the degenerate plan `(0, "0g")`. -/
theorem spec_C4_counterexample :
    (-1073741824 : ℚ) < 0 ∧
    SizeEstimatorE (-1073741824) = Except.ok (0, "0g") ∧
    (SizeEstimatorE (-1073741824)).isOk = true := by
  have hgb : bytes_to_gb (-1073741824 : ℚ) = -1 := by
    unfold bytes_to_gb
    norm_num
  have hpy : pyInt ((-1 : ℚ) * 2) = -2 := by
    rw [pyInt, if_neg (by norm_num), Int.ceil_eq_iff]
    norm_num
  have hcores : configure_spark_cores (-1 : ℚ) = 0 := by
    rw [configure_spark_cores_def, hpy]
    norm_num
  have hmem : configure_spark_memory_gb (-1 : ℚ) = 0 := by
    rw [configure_spark_memory_gb, hcores]
    norm_num
  refine ⟨by norm_num, ?_, rfl⟩
  simp only [SizeEstimatorE, configure_sparkE, configure_spark, hgb, hcores, hmem]
  rfl

/-- Claim C4 (amended): the size estimator never fails — `configure_spark`
contains no validity check, so for every `byte_size`, negative ones
included, it returns a cluster plan rather than signaling an error. -/
theorem spec_C4_never_fails (byte_size : ℚ) :
    (SizeEstimatorE byte_size).isOk = true :=
  rfl

/-! ## Lemmas about the frequency filter -/

theorem filter_data_def (df : List Record) :
    filter_data df =
      (filter_nulls df).filter (isinTop (topSubreddits (filter_nulls df))) :=
  rfl

theorem mem_dedupFirstAux (a : String) :
    ∀ (l seen : List String), a ∈ dedupFirstAux l seen ↔ a ∈ l ∧ a ∉ seen := by
  intro l
  induction l with
  | nil =>
    intro seen
    simp [dedupFirstAux]
  | cons s ss ih =>
    intro seen
    rw [dedupFirstAux]
    split_ifs with hs
    · rw [ih]
      by_cases hae : a = s
      · subst hae
        simp [hs]
      · simp [List.mem_cons, hae]
    · simp only [List.mem_cons, ih]
      by_cases hae : a = s
      · subst hae
        simp [hs]
      · simp [hae]

theorem mem_insertDesc (cnt : String → ℕ) (a s : String) :
    ∀ l, a ∈ insertDesc cnt s l ↔ a = s ∨ a ∈ l := by
  intro l
  induction l with
  | nil => simp [insertDesc]
  | cons t ts ih =>
    rw [insertDesc]
    split_ifs with h
    · simp [List.mem_cons]
    · simp only [List.mem_cons, ih]
      tauto

theorem length_insertDesc (cnt : String → ℕ) (s : String) :
    ∀ l, (insertDesc cnt s l).length = l.length + 1 := by
  intro l
  induction l with
  | nil => rfl
  | cons t ts ih =>
    rw [insertDesc]
    split_ifs with h
    · simp
    · simp [ih]

theorem mem_sortByCountDesc (cnt : String → ℕ) (a : String) :
    ∀ l, a ∈ sortByCountDesc cnt l ↔ a ∈ l := by
  intro l
  induction l with
  | nil => simp [sortByCountDesc]
  | cons s ss ih =>
    rw [sortByCountDesc, mem_insertDesc]
    simp [ih]

theorem length_sortByCountDesc (cnt : String → ℕ) :
    ∀ l, (sortByCountDesc cnt l).length = l.length := by
  intro l
  induction l with
  | nil => rfl
  | cons s ss ih =>
    rw [sortByCountDesc, length_insertDesc, ih, List.length_cons]

/-! ## Claim theorem: C5 -/

/-- Claim C5: `filter_data` output has no row with an absent required field
and at most 25 distinct subreddit (category) values; when at most 25
distinct categories survive the null filter, every null-filtered row is
retained; and a dataset that is empty after the null filter yields an empty
output (no error — the function is total). -/
theorem spec_C5_frequency_filter (df : List Record) :
    (∀ r ∈ filter_data df, hasAllFields r = true) ∧
    ((filter_data df).filterMap Record.subreddit).dedup.length ≤ 25 ∧
    ((distinctSubs (filter_nulls df)).length ≤ 25 → filter_data df = filter_nulls df) ∧
    (filter_nulls df = [] → filter_data df = []) := by
  refine ⟨?_, ?_, ?_, ?_⟩
  · intro r hr
    rw [filter_data_def] at hr
    exact (List.mem_filter.mp (List.mem_filter.mp hr).1).2
  · have hsub : ((filter_data df).filterMap Record.subreddit).dedup ⊆
        topSubreddits (filter_nulls df) := by
      intro x hx
      obtain ⟨r, hr, hrs⟩ := List.mem_filterMap.mp (List.dedup_subset _ hx)
      rw [filter_data_def] at hr
      have h2 := (List.mem_filter.mp hr).2
      simp only [isinTop, hrs] at h2
      exact List.elem_iff.mp h2
    have hnd := List.nodup_dedup ((filter_data df).filterMap Record.subreddit)
    calc ((filter_data df).filterMap Record.subreddit).dedup.length
        ≤ (topSubreddits (filter_nulls df)).length :=
          (List.Nodup.subperm hnd hsub).length_le
      _ ≤ 25 := List.length_take_le _ _
  · intro hlen
    rw [filter_data_def]
    apply List.filter_eq_self.mpr
    intro r hr
    have hall : hasAllFields r = true := (List.mem_filter.mp hr).2
    obtain ⟨s, hs⟩ : ∃ s, r.subreddit = some s := by
      rcases hsr : r.subreddit with _ | s
      · simp [hasAllFields, hsr] at hall
      · exact ⟨s, rfl⟩
    have hsmem : s ∈ distinctSubs (filter_nulls df) := by
      rw [distinctSubs, mem_dedupFirstAux]
      exact ⟨List.mem_filterMap.mpr ⟨r, hr, hs⟩, by simp⟩
    have htake : topSubreddits (filter_nulls df) =
        sortByCountDesc (subCount (filter_nulls df)) (distinctSubs (filter_nulls df)) := by
      rw [topSubreddits]
      apply List.take_of_length_le
      rw [length_sortByCountDesc]
      exact hlen
    have hsort : s ∈ topSubreddits (filter_nulls df) := by
      rw [htake, mem_sortByCountDesc]
      exact hsmem
    simp only [isinTop, hs]
    exact List.elem_iff.mpr hsort
  · intro hempty
    rw [filter_data_def, hempty]
    simp

/-- Witness for C5: the claim theorem applied at two concrete dataframes,
with the membership and emptiness side conditions discharged by
computation. -/
theorem spec_C5_witness :
    (∀ r ∈ filter_data [Record.mk (some "a") (some "b") (some "c")], hasAllFields r = true) ∧
    filter_data [Record.mk (some "a") (some "b") (some "c")] =
      filter_nulls [Record.mk (some "a") (some "b") (some "c")] ∧
    filter_data [Record.mk none none none] = [] :=
  ⟨(spec_C5_frequency_filter [Record.mk (some "a") (some "b") (some "c")]).1,
   (spec_C5_frequency_filter [Record.mk (some "a") (some "b") (some "c")]).2.2.1 (by decide),
   (spec_C5_frequency_filter [Record.mk none none none]).2.2.2 (by decide)⟩

/-! ## Lemmas about the harness -/

theorem runReps_map_some : ∀ runs : List RunMetrics, runReps (runs.map some) = some runs := by
  intro runs
  induction runs with
  | nil => rfl
  | cons m ms ih => simp [runReps, ih]

theorem runReps_eq_none_iff :
    ∀ outcomes : List (Option RunMetrics), runReps outcomes = none ↔ none ∈ outcomes := by
  intro outcomes
  induction outcomes with
  | nil => simp [runReps]
  | cons o rest ih =>
    cases o with
    | none => simp [runReps]
    | some m => simp [runReps, Option.map_eq_none', ih]

theorem benchmarkLoop_eq (run : String → Option BenchmarkRow) :
    ∀ (files : List String) (results : List (String × BenchmarkRow)),
      benchmarkLoop results files run =
        results ++ files.filterMap fun file => (run file).map fun row => (file, row) := by
  intro files
  induction files with
  | nil =>
    intro results
    simp [benchmarkLoop]
  | cons file rest ih =>
    intro results
    cases hrf : run file with
    | none => simp [benchmarkLoop, hrf, ih, List.filterMap_cons]
    | some row => simp [benchmarkLoop, hrf, ih, List.filterMap_cons]

/-! ## Claim theorems: C6–C10 -/

/-- Claim C6: `split_data` is deterministic — two invocations with the same
seed and dataset (under arbitrarily different ambient environments) produce
identical train/test membership for every row. -/
theorem spec_C6_split_deterministic (ambient1 ambient2 : ℕ) (df : List Record)
    (seed : ℕ) (test_fraction : ℚ) (r : Record) :
    run_split ambient1 df seed test_fraction = run_split ambient2 df seed test_fraction ∧
    (r ∈ (run_split ambient1 df seed test_fraction).1 ↔
      r ∈ (run_split ambient2 df seed test_fraction).1) ∧
    (r ∈ (run_split ambient1 df seed test_fraction).2 ↔
      r ∈ (run_split ambient2 df seed test_fraction).2) :=
  ⟨rfl, Iff.rfl, Iff.rfl⟩

/-- Claim C7: when all `n` repetitions of a dataset complete,
`evaluate_performance` returns one row whose timing fields and accuracy are
the arithmetic means of the `n` per-repetition `RunMetrics` values — the
accuracy is averaged like the timings, not recomputed from pooled
predictions. -/
theorem spec_C7_benchmark_row_means (runs : List RunMetrics) :
    evaluate_performance (runs.map some) = some (meanRow runs) ∧
    (meanRow runs).load_time = arithMean (runs.map RunMetrics.load_time) ∧
    (meanRow runs).train_time = arithMean (runs.map RunMetrics.train_time) ∧
    (meanRow runs).eval_time = arithMean (runs.map RunMetrics.eval_time) ∧
    (meanRow runs).total_time = arithMean (runs.map RunMetrics.total_time) ∧
    (meanRow runs).accuracy = arithMean (runs.map RunMetrics.accuracy) := by
  refine ⟨?_, rfl, rfl, rfl, rfl, rfl⟩
  rw [evaluate_performance, runReps_map_some]
  rfl

/-- Claim C8 counterexample: a dataset whose first repetition succeeds and
whose second raises produces no `BenchmarkRow` — yet not all of its
repetitions failed, refuting "no BenchmarkRow precisely when all n
repetitions fail". -/
theorem spec_C8_counterexample :
    evaluate_performance [some (RunMetrics.mk 1 1 1 1 1), none] = none ∧
    ¬ (∀ o ∈ ([some (RunMetrics.mk 1 1 1 1 1), none] : List (Option RunMetrics)),
        o = none) := by
  constructor
  · rfl
  · intro hall
    have hcontra := hall (some (RunMetrics.mk 1 1 1 1 1)) (by simp)
    simp at hcontra

/-- Claim C8 (amended): an unrecoverable error is caught at the per-dataset
boundary — the loop proceeds to the next dataset and the rows already
collected are preserved unchanged (`benchmarkLoop` equals the previous
results followed by one row per non-failing dataset, in order) — but a
dataset produces no `BenchmarkRow` precisely when *some* repetition fails:
the first failing repetition aborts the remaining ones and discards that
dataset's partial metrics. -/
theorem spec_C8_per_dataset_isolation (outcomes : List (Option RunMetrics))
    (results : List (String × BenchmarkRow)) (files : List String)
    (run : String → Option BenchmarkRow) :
    (evaluate_performance outcomes = none ↔ none ∈ outcomes) ∧
    benchmarkLoop results files run =
      results ++ files.filterMap fun file => (run file).map fun row => (file, row) := by
  constructor
  · rw [evaluate_performance, Option.map_eq_none']
    exact runReps_eq_none_iff outcomes
  · exact benchmarkLoop_eq run files results

/-- Claim C9 (code-bug evidence): `spark_context.stop()` is not protected
by any `finally`, so a repetition whose train step raises ends with the
configured session still live (`create, destroy, create` and one unmatched
session), while a fully successful repetition tears its session down
(`create, destroy, create, destroy`, zero live). -/
theorem spec_C9_teardown_not_guaranteed :
    repetitionEvents (fun s => s == RepStep.train) =
      [SessionEv.create, SessionEv.destroy, SessionEv.create] ∧
    liveSessions (repetitionEvents (fun s => s == RepStep.train)) = 1 ∧
    repetitionEvents (fun _ => false) =
      [SessionEv.create, SessionEv.destroy, SessionEv.create, SessionEv.destroy] ∧
    liveSessions (repetitionEvents (fun _ => false)) = 0 := by
  refine ⟨rfl, rfl, rfl, rfl⟩

/-- Claim C10: the harness calls the splitter with the fixed defaults
`seed = 42` and `test_fraction = 0.2` on the filtered dataframe, with no
dependence on the repetition index, so every repetition of a dataset trains
and evaluates on the identical train/test partition. -/
theorem spec_C10_fixed_split_defaults (df : List Record) (i j : ℕ) (r : Record) :
    harness_split_at_rep df i = split_data (filter_data df) 42 (0.2 : ℚ) ∧
    harness_split_at_rep df i = harness_split_at_rep df j ∧
    (r ∈ (harness_split_at_rep df i).1 ↔ r ∈ (harness_split_at_rep df j).1) ∧
    (r ∈ (harness_split_at_rep df i).2 ↔ r ∈ (harness_split_at_rep df j).2) :=
  ⟨rfl, rfl, Iff.rfl, Iff.rfl⟩

end DEProject
